import Mathlib

/-!
Verification of the cennso-website lint scripts against their specification.

Each section embeds the matching/classification logic of one Python checker
script as executable Lean definitions (floats are modelled as real numbers,
Python strings as Lean strings scanned character by character), and the
theorems at the end of the file settle the specification claims.
-/

namespace Cennso

/-! ## String scanning primitives

The checkers use `re.search` with plain-literal alternations and Python
substring tests.  We implement the corresponding decidable string scans on
`List Char` so that every definition evaluates by `decide` or `rfl`. -/

/-- `prefixOf pat text`: does `pat` occur at the very start of `text`? -/
def prefixOf : List Char → List Char → Bool
  | [], _ => true
  | _ :: _, [] => false
  | p :: ps, t :: ts => p == t && prefixOf ps ts

/-- `containsL pat text`: does `pat` occur as a contiguous sublist of `text`?
This is Python's `pat in text` / `re.search` of a literal pattern. -/
def containsL (pat : List Char) : List Char → Bool
  | [] => prefixOf pat []
  | t :: ts => prefixOf pat (t :: ts) || containsL pat ts

/-- Substring test on strings (case sensitive), Python's `pat in s`. -/
def containsS (s pat : String) : Bool := containsL pat.data s.data

/-- Lower-case a string character-wise (for `re.IGNORECASE` scans). -/
def lowerStr (s : String) : String := String.mk (s.data.map Char.toLower)

/-- Case-insensitive substring test, i.e. `re.search(pat, s, re.IGNORECASE)`
for a literal pattern `pat`. -/
def containsCI (s pat : String) : Bool := containsS (lowerStr s) (lowerStr pat)

/-- Python `s.startswith(pat)`. -/
def startsWithS (s pat : String) : Bool := prefixOf pat.data s.data

/-- Python `s.endswith(pat)`. -/
def endsWithS (s pat : String) : Bool :=
  prefixOf pat.data.reverse s.data.reverse

/-- Python `s[:-n]`: the string without its last `n` characters. -/
def dropRightS (s : String) (n : Nat) : String :=
  String.mk (s.data.take (s.data.length - n))

/-- Python `len(s)`. -/
def strLen (s : String) : Nat := s.data.length

/-- Python `s.split(sep)` for a one-character separator (empty pieces
kept). -/
def splitOnChar (sep : Char) : List Char → List (List Char)
  | [] => [[]]
  | c :: cs =>
    let rest := splitOnChar sep cs
    if c == sep then [] :: rest
    else
      match rest with
      | r :: rs => (c :: r) :: rs
      | [] => [[c]]

/-- Python `s.strip()`: remove leading and trailing whitespace. -/
def trimS (s : String) : String :=
  String.mk
    (((s.data.dropWhile Char.isWhitespace).reverse.dropWhile
      Char.isWhitespace).reverse)

/-- Python `'\n'.join(pieces)`. -/
def joinNL : List (List Char) → List Char
  | [] => []
  | [l] => l
  | l :: ls => l ++ '\n' :: joinNL ls

/-! ## check-contrast.py — WCAG contrast calculator

`hex_to_rgb`, `relative_luminance`, `contrast_ratio` from
src/scripts/check-contrast.py lines 19-44.  Python floats are modelled as
real numbers; the piecewise branch test (a comparison of exactly
representable small decimals) is taken on the rational channel value. -/

/-- Value of one hexadecimal digit, as understood by Python's `int(_, 16)`. -/
def hexDigit? (c : Char) : Option Nat :=
  if '0' ≤ c ∧ c ≤ '9' then some (c.toNat - '0'.toNat)
  else if 'a' ≤ c ∧ c ≤ 'f' then some (c.toNat - 'a'.toNat + 10)
  else if 'A' ≤ c ∧ c ≤ 'F' then some (c.toNat - 'A'.toNat + 10)
  else none

/-- Accumulating hex parse of a digit list. -/
def parseHexAux : List Char → Nat → Option Nat
  | [], acc => some acc
  | c :: cs, acc =>
    match hexDigit? c with
    | some d => parseHexAux cs (acc * 16 + d)
    | none => none

/-- Python `int(s, 16)` on a non-signed slice: fails on the empty string or
on any non-hex character. -/
def parseHex : List Char → Option Nat
  | [] => none
  | cs => parseHexAux cs 0

/-- `hex_to_rgb` (check-contrast.py line 19): strip leading `#` characters,
then read the three byte slices at offsets 0, 2, 4.  Python raises
`ValueError` on a malformed slice; we return `none` there. -/
def hexToRgb (hexColor : String) : Option (Nat × Nat × Nat) :=
  let cs := hexColor.data.dropWhile (· == '#')
  match parseHex (cs.take 2), parseHex ((cs.drop 2).take 2),
      parseHex ((cs.drop 4).take 2) with
  | some r, some g, some b => some (r, g, b)
  | _, _, _ => none

/-- The per-channel sRGB-to-linear `adjust` (check-contrast.py line 29). -/
noncomputable def adjust (channel : ℚ) : ℝ :=
  if channel ≤ 0.03928 then (channel : ℝ) / 12.92
  else (((channel : ℝ) + 0.055) / 1.055) ^ (2.4 : ℝ)

/-- `relative_luminance` (check-contrast.py line 25). -/
noncomputable def relativeLuminance (rgb : Nat × Nat × Nat) : ℝ :=
  let r := adjust ((rgb.1 : ℚ) / 255)
  let g := adjust ((rgb.2.1 : ℚ) / 255)
  let b := adjust ((rgb.2.2 : ℚ) / 255)
  0.2126 * r + 0.7152 * g + 0.0722 * b

/-- `contrast_ratio` (check-contrast.py line 38): `(lighter + 0.05) /
(darker + 0.05)` with `lighter`/`darker` the max/min luminance. -/
noncomputable def contrastRatio (color1 color2 : String) : Option ℝ :=
  match hexToRgb color1, hexToRgb color2 with
  | some rgb1, some rgb2 =>
    let lum1 := relativeLuminance rgb1
    let lum2 := relativeLuminance rgb2
    some ((max lum1 lum2 + 0.05) / (min lum1 lum2 + 0.05))
  | _, _ => none

/-! ## check-semantic-structure.py — heading hierarchy and exit code

`check_heading_hierarchy` (lines 66-171) collects all heading levels of a
page file in document order and then inspects only that level sequence, so
we embed the classification over the collected `List Nat` of levels.  The
branch below is the one for a `pages/` file that does not use the
`PageHeader` component (lines 120-169); violations keep their name,
severity and description (line numbers do not influence which violations
fire). -/

structure SemanticViolation where
  name : String
  severity : String
  description : String
deriving DecidableEq

/-- The skipped-level loop (lines 145-157): one violation per consecutive
pair of headings whose level increases by more than one. -/
def skippedLevelViolations : List Nat → List SemanticViolation
  | prev :: curr :: rest =>
    (if curr > prev + 1 then
      [⟨"Heading level skipped", "error",
        "h" ++ toString prev ++ " → h" ++ toString curr
          ++ " skips levels (should be h" ++ toString prev ++ " → h"
          ++ toString (prev + 1) ++ ")"⟩]
    else []) ++ skippedLevelViolations (curr :: rest)
  | _ => []

/-- `check_heading_hierarchy` on the collected heading levels of a page
file without `PageHeader` (lines 120-169): a warning when no heading
exists, an error when the first heading is not h1, one error per skipped
consecutive pair, and an error when more than one h1 exists. -/
def checkHeadingHierarchy (headings : List Nat) : List SemanticViolation :=
  match headings with
  | [] =>
    [⟨"Page without headings", "warning",
      "Page should have at least one heading for structure"⟩]
  | first :: _ =>
    (if first ≠ 1 then
      [⟨"First heading is not h1", "error",
        "First heading is h" ++ toString first ++ ", should be h1 (WCAG 1.3.1)"⟩]
    else [])
    ++ skippedLevelViolations headings
    ++ (let h1Count := headings.countP (fun level => level == 1)
        if h1Count > 1 then
          [⟨"Multiple h1 elements", "error",
            "Page has " ++ toString h1Count
              ++ " h1 elements, should have exactly 1"⟩]
        else [])

/-- `main` of check-semantic-structure.py (lines 423-475): split the
aggregated violations by severity; exit 1 when errors exist, exit 0 when
only warnings (or nothing) remain. -/
def semanticExitCode (violations : List SemanticViolation) : Nat :=
  let errors := violations.filter (fun v => v.severity == "error")
  let warnings := violations.filter (fun v => v.severity == "warning")
  if errors ≠ [] then 1
  else if warnings ≠ [] then 0
  else 0

/-! ## check-enough-time.py — violation records and exit code -/

/-- One violation record `(file_path, line_number, message)` of
check-enough-time.py. -/
structure TimingViolation where
  filePath : String
  lineNumber : Nat
  message : String
deriving DecidableEq

/-- `main` of check-enough-time.py (lines 269-336): the exit code is 1
exactly when the two aggregated violation lists are jointly non-empty.
Every violation this script emits is a blocking WCAG error (its header:
exit 1 means errors found); there is no warning severity. -/
def enoughTimeExitCode (timingAdjustable pauseStopHide : List TimingViolation) :
    Nat :=
  let totalViolations := timingAdjustable.length + pauseStopHide.length
  if totalViolations > 0 then 1 else 0

/-! ## check-internal-links.py — route set and broken-link detection

`main` (lines 123-188) builds the valid-route set from the rendered HTML
file paths and then checks every anchor's href.  A rendered page is
modelled by its build-relative path with the `.html` suffix already
removed (`relative_path.with_suffix('')`) together with the list of href
values of its anchors, in document order. -/

/-- Scheme detection of `urllib.parse.urlparse`: a scheme is a leading
alphabetic character followed by alphanumerics, `+`, `-` or `.`, ended by
a colon. -/
def isSchemeChar (c : Char) : Bool :=
  c.isAlphanum || c == '+' || c == '-' || c == '.'

/-- Does `urlparse(href).scheme` come out non-empty? -/
def hasScheme (href : String) : Bool :=
  let pre := href.data.takeWhile (fun c => c ≠ ':')
  if pre.length = href.data.length then false
  else
    match pre with
    | [] => false
    | c :: cs => c.isAlpha && cs.all isSchemeChar

/-- Rest of a `//netloc...` reference after dropping the network location
(everything up to the first `/`, `?` or `#`). -/
def dropNetloc (cs : List Char) : List Char :=
  cs.dropWhile (fun c => c ≠ '/' && c ≠ '?' && c ≠ '#')

/-- `urlparse(href).path` for the scheme-less references this checker
feeds it: drop a leading `//netloc`, then cut query and fragment. -/
def urlPath (href : String) : String :=
  let cs :=
    if prefixOf ['/', '/'] href.data then dropNetloc (href.data.drop 2)
    else href.data
  String.mk (cs.takeWhile (fun c => c ≠ '?' && c ≠ '#'))

/-- Trailing-slash normalization applied to checked hrefs (lines 168-170). -/
def normalizeTrailingSlash (p : String) : String :=
  if strLen p > 1 && endsWithS p "/" then dropRightS p 1 else p

/-- Route of a rendered file (lines 139-144 and 173-175): prefix `/`, and
when the result ends in `/index` drop the final five characters `index`
(Python `url_path[:-5] or "/"`; the `or "/"` branch is kept although the
prefixed path can never become empty). -/
def routeOfFile (rel : String) : String :=
  let url := "/" ++ rel
  if endsWithS url "/index" then
    let collapsed := dropRightS url 5
    if collapsed == "" then "/" else collapsed
  else url

/-- Href skip rule (line 161): ignore external links (any scheme),
fragment-only, `mailto:` and `tel:` links. -/
def skipHref (href : String) : Bool :=
  hasScheme href || startsWithS href "#" || startsWithS href "mailto:"
    || startsWithS href "tel:"

/-- The broken-link pass of `main` (lines 135-176): build the route set,
then report `(source page, href)` for every non-skipped href whose
normalized path is not a known route. -/
def brokenLinks (files : List (String × List String)) :
    List (String × String) :=
  let allPages := files.map (fun f => routeOfFile f.1)
  files.flatMap (fun f =>
    f.2.filterMap (fun href =>
      if skipHref href then none
      else
        let cleanPath := normalizeTrailingSlash (urlPath href)
        if allPages.contains cleanPath then none
        else some (routeOfFile f.1, href)))

/-! ## validate-structured-data.py — JSON-LD validation

Parsed JSON values are modelled by the `Json` inductive; a Python dict is
an association list (`json.loads` keeps keys unique).  The script's
`validate_structured_data` treats the parsed block as a dict
(`Dict[str, Any]` in its annotations), so the parse outcome of a block is
modelled as `Except String (List (String × Json))`: either the
`json.JSONDecodeError` message or the top-level object. -/

inductive Json where
  | null
  | bool (b : Bool)
  | num (q : ℚ)
  | str (s : String)
  | arr (elements : List Json)
  | obj (members : List (String × Json))

mutual

/-- Structural equality of JSON values (Python `==` on parsed data). -/
def Json.beq : Json → Json → Bool
  | .null, .null => true
  | .bool a, .bool b => a == b
  | .num a, .num b => a == b
  | .str a, .str b => a == b
  | .arr a, .arr b => Json.beqList a b
  | .obj a, .obj b => Json.beqMembers a b
  | _, _ => false

/-- Element-wise equality of JSON arrays. -/
def Json.beqList : List Json → List Json → Bool
  | [], [] => true
  | x :: xs, y :: ys => Json.beq x y && Json.beqList xs ys
  | _, _ => false

/-- Entry-wise equality of JSON objects. -/
def Json.beqMembers : List (String × Json) → List (String × Json) → Bool
  | [], [] => true
  | (k1, v1) :: xs, (k2, v2) :: ys =>
    k1 == k2 && Json.beq v1 v2 && Json.beqMembers xs ys
  | _, _ => false

end

instance : BEq Json := ⟨Json.beq⟩

/-- Python dict `.get`: the value at a key, if present. -/
def jsonGet (members : List (String × Json)) (key : String) : Option Json :=
  (members.find? (fun m => m.1 == key)).map (fun m => m.2)

/-- Python `key in dict`. -/
def jsonHas (members : List (String × Json)) (key : String) : Bool :=
  members.any (fun m => m.1 == key)

/-- Python `str()` of a parsed-JSON value as interpolated into f-string
messages: strings render bare, `None`/`True`/`False` as Python does;
numeric and container rendering is abbreviated here (no theorem below
examines a message built from a non-string value). -/
def pyStr : Json → String
  | .null => "None"
  | .bool true => "True"
  | .bool false => "False"
  | .num q => toString q
  | .str s => s
  | .arr _ => "[...]"
  | .obj _ => "\x7b...\x7d"

/-- Python `type(x).__name__` for a parsed-JSON value (numbers arrive as
`int` or `float` in Python; we render `float`). -/
def pyTypeName : Json → String
  | .null => "NoneType"
  | .bool _ => "bool"
  | .num _ => "float"
  | .str _ => "str"
  | .arr _ => "list"
  | .obj _ => "dict"

/-- Outcome of `validate_json_syntax` (lines 22-28). -/
structure SyntaxCheck where
  valid : Bool
  data : Option (List (String × Json))
  message : String

/-- `validate_json_syntax`: valid parse keeps the data, a
`json.JSONDecodeError` becomes the syntax-error message. -/
def validate_json_syntax (parsed : Except String (List (String × Json))) :
    SyntaxCheck :=
  match parsed with
  | .ok d => ⟨true, some d, "Valid JSON"⟩
  | .error e => ⟨false, none, "JSON syntax error: " ++ e⟩

/-- Outcome of `validate_schema_type` (lines 31-90). -/
structure TypeCheck where
  valid : Bool
  types : List Json
  message : String

/-- The fixed whitelist of schema.org types (lines 43-61). -/
def validTypes : List String :=
  ["Organization", "Article", "BlogPosting", "BreadcrumbList",
   "LocalBusiness", "JobPosting", "Service", "Person", "WebSite",
   "WebPage", "FAQPage", "Question", "Answer", "PostalAddress",
   "GeoCoordinates", "ImageObject", "ContactPoint"]

/-- Whitelist check of a normalized `@type` list (lines 81-90); a
non-string entry compares unequal to every whitelisted name, exactly as
in Python. -/
def validateTypeList (schemaTypes : List Json) : TypeCheck :=
  let unrecognized :=
    schemaTypes.filter (fun t => !(validTypes.any (fun v => t == Json.str v)))
  match unrecognized with
  | [] => ⟨true, schemaTypes, "OK"⟩
  | _ =>
    ⟨false, [],
      "Unrecognized @type values: "
        ++ String.intercalate ", " (unrecognized.map pyStr)
        ++ ". Valid types: " ++ String.intercalate ", " validTypes⟩

/-- `validate_schema_type` (lines 31-90): `@type` missing (absent key or
JSON null, both `None` to Python's `.get`) is an error; a string is
normalized to a one-element list; a list is checked element-wise; any
other shape is rejected. -/
def validate_schema_type (schema_data : List (String × Json)) : TypeCheck :=
  match jsonGet schema_data "@type" with
  | none => ⟨false, [], "@type is missing"⟩
  | some Json.null => ⟨false, [], "@type is missing"⟩
  | some (Json.str s) => validateTypeList [Json.str s]
  | some (Json.arr l) => validateTypeList l
  | some other =>
    ⟨false, [], "@type must be string or array, got " ++ pyTypeName other⟩

/-! ### URL and date shape checks (lines 93-112)

`validate_url_format` is an anchored regex
`^https?://(domain|localhost|IP)(:port)?(/?|[/?]\S+)$` (IGNORECASE);
`validate_date_format` defers to Python's `datetime.fromisoformat` after
rewriting `Z` to `+00:00`.  Both are embedded as direct scanners. -/

/-- Characters the host portion of the URL regex can consume. -/
def isHostChar (c : Char) : Bool := c.isAlphanum || c == '-' || c == '.'

/-- Split a character list at every dot. -/
def splitOnDot (cs : List Char) : List (List Char) := splitOnChar '.' cs

/-- One domain label: `[A-Z0-9](?:[A-Z0-9-]{0,61}[A-Z0-9])?` — a single
alphanumeric, or 2-63 characters whose first and last are alphanumeric
and whose middle allows hyphens. -/
def validLabel (label : List Char) : Bool :=
  match label with
  | [] => false
  | [c] => c.isAlphanum
  | c :: cs =>
    c.isAlphanum && decide (label.length ≤ 63)
      && cs.dropLast.all (fun d => d.isAlphanum || d == '-')
      && (match cs.getLast? with
          | some d => d.isAlphanum
          | none => false)

/-- The TLD part `[A-Z]{2,6}`. -/
def validTld (tld : List Char) : Bool :=
  decide (2 ≤ tld.length) && decide (tld.length ≤ 6) && tld.all Char.isAlpha

/-- The dotted-domain alternative `(?:label\.)+[A-Z]{2,6}\.?`. -/
def validDomain (host : List Char) : Bool :=
  let parts := splitOnDot host
  let core := if parts.getLast? == some [] then parts.dropLast else parts
  match core.getLast? with
  | some tld =>
    decide (2 ≤ core.length) && core.dropLast.all validLabel && validTld tld
  | none => false

/-- The IP alternative `\d{1,3}\.\d{1,3}\.\d{1,3}\.\d{1,3}`. -/
def isIPv4ish (host : List Char) : Bool :=
  let parts := splitOnDot host
  parts.length == 4
    && parts.all (fun p =>
      decide (1 ≤ p.length) && decide (p.length ≤ 3) && p.all Char.isDigit)

/-- Any of the three host alternatives (the input is already lowercased). -/
def validHost (host : List Char) : Bool :=
  validDomain host || host == "localhost".data || isIPv4ish host

/-- The tail pattern `(?:/?|[/?]\S+)$`. -/
def pathPartOk (cs : List Char) : Bool :=
  match cs with
  | [] => true
  | [c] => c == '/'
  | c :: rest => (c == '/' || c == '?') && rest.all (fun d => !d.isWhitespace)

/-- `validate_url_format` (lines 93-103). -/
def validate_url_format (url : String) : Bool :=
  let cs := (lowerStr url).data
  let afterScheme :=
    if prefixOf "https://".data cs then some (cs.drop 8)
    else if prefixOf "http://".data cs then some (cs.drop 7)
    else none
  match afterScheme with
  | none => false
  | some rest =>
    let host := rest.takeWhile isHostChar
    let afterHost := rest.drop host.length
    if !(validHost host) then false
    else
      match afterHost with
      | ':' :: portRest =>
        let digits := portRest.takeWhile Char.isDigit
        if digits.isEmpty then false
        else pathPartOk (portRest.drop digits.length)
      | _ => pathPartOk afterHost

/-- Numeric value of a digit list. -/
def digitsToNat (ds : List Char) : Nat :=
  ds.foldl (fun acc c => acc * 10 + (c.toNat - '0'.toNat)) 0

/-- Exactly `n` leading digits, with their value and the remainder. -/
def takeExactDigits (n : Nat) (cs : List Char) : Option (Nat × List Char) :=
  let ds := cs.take n
  if ds.length == n && ds.all Char.isDigit then
    some (digitsToNat ds, cs.drop n)
  else none

/-- Gregorian leap year, as `datetime` uses it. -/
def isLeapYear (y : Nat) : Bool :=
  (y % 4 == 0 && !(y % 100 == 0)) || y % 400 == 0

/-- Days in a month, as `datetime` validates them. -/
def daysInMonth (y m : Nat) : Nat :=
  if m == 2 then (if isLeapYear y then 29 else 28)
  else if m == 4 || m == 6 || m == 9 || m == 11 then 30
  else 31

/-- The `HH[:MM[:SS[.fff[fff]]]]` time portion accepted by
`datetime.fromisoformat`; returns the unconsumed remainder. -/
def parseHMS (cs : List Char) : Option (List Char) :=
  match takeExactDigits 2 cs with
  | none => none
  | some (hh, r1) =>
    if hh ≥ 24 then none
    else
      match r1 with
      | ':' :: r2 =>
        match takeExactDigits 2 r2 with
        | none => none
        | some (mm, r3) =>
          if mm ≥ 60 then none
          else
            match r3 with
            | ':' :: r4 =>
              match takeExactDigits 2 r4 with
              | none => none
              | some (ss, r5) =>
                if ss ≥ 60 then none
                else
                  match r5 with
                  | '.' :: r6 =>
                    let ds := r6.takeWhile Char.isDigit
                    if ds.length == 3 || ds.length == 6 then
                      some (r6.drop ds.length)
                    else none
                  | _ => some r5
            | _ => some r3
      | _ => some r1

/-- The optional `±HH:MM[:SS[.ffffff]]` offset portion accepted by
`datetime.fromisoformat`, which must consume the rest of the string. -/
def parseOffset (cs : List Char) : Bool :=
  match cs with
  | [] => true
  | c :: rest =>
    if c == '+' || c == '-' then
      match takeExactDigits 2 rest with
      | none => false
      | some (oh, r1) =>
        if oh ≥ 24 then false
        else
          match r1 with
          | ':' :: r2 =>
            match takeExactDigits 2 r2 with
            | none => false
            | some (om, r3) =>
              if om ≥ 60 then false
              else
                match r3 with
                | [] => true
                | ':' :: r4 =>
                  match takeExactDigits 2 r4 with
                  | none => false
                  | some (os, r5) =>
                    if os ≥ 60 then false
                    else
                      match r5 with
                      | [] => true
                      | '.' :: r6 => r6.length == 6 && r6.all Char.isDigit
                      | _ => false
                | _ => false
          | _ => false
    else false

/-- Python `date_str.replace('Z', '+00:00')`: every `Z` becomes the
six-character UTC offset. -/
def replaceZ : List Char → List Char
  | [] => []
  | c :: cs =>
    if c == 'Z' then '+' :: '0' :: '0' :: ':' :: '0' :: '0' :: replaceZ cs
    else c :: replaceZ cs

/-- `validate_date_format` (lines 106-112): replace every `Z` by
`+00:00`, then accept what `datetime.fromisoformat` accepts —
`YYYY-MM-DD` (a real calendar date), optionally a one-character separator
and a time, optionally a UTC offset. -/
def validDateFormat (dateStr : String) : Bool :=
  let s := replaceZ dateStr.data
  match takeExactDigits 4 s with
  | none => false
  | some (y, r1) =>
    match r1 with
    | '-' :: r2 =>
      match takeExactDigits 2 r2 with
      | none => false
      | some (m, r3) =>
        match r3 with
        | '-' :: r4 =>
          match takeExactDigits 2 r4 with
          | none => false
          | some (d, r5) =>
            if y < 1 || m < 1 || m > 12 || d < 1 || d > daysInMonth y m then
              false
            else
              match r5 with
              | [] => true
              | _sep :: r6 =>
                match parseHMS r6 with
                | none => false
                | some r7 => parseOffset r7
        | _ => false
    | _ => false

/-- `validate_date_format` applied to a JSON value: the Python function
catches the `AttributeError` a non-string raises and returns `False`. -/
def dateFormatOk (v : Json) : Bool :=
  match v with
  | .str s => validDateFormat s
  | _ => false

/-! ### Required-property validation (lines 115-199) -/

/-- Shared shape of the per-type blocks: one `"<Type> missing '<prop>'"`
error per absent required property, in declaration order. -/
def missingProps (schema_data : List (String × Json)) (typeName : String)
    (props : List String) : List String :=
  props.filterMap (fun prop =>
    if jsonHas schema_data prop then none
    else some (typeName ++ " missing \x27" ++ prop ++ "\x27"))

/-- The nested `acceptedAnswer` checks of the FAQPage block
(lines 164-169). -/
def faqAnswerErrors (i : Nat) (answer : List (String × Json)) :
    List String :=
  (if !((jsonGet answer "@type").getD Json.null == Json.str "Answer") then
    ["FAQPage Question[" ++ toString i
      ++ "] acceptedAnswer must have @type: Answer"]
  else [])
  ++ (if !(jsonHas answer "text") then
    ["FAQPage Question[" ++ toString i ++ "] Answer missing \x27text\x27"]
  else [])

/-- The per-question checks of the FAQPage block (lines 154-169). -/
def faqQuestionErrors (i : Nat) (question : Json) : List String :=
  match question with
  | Json.obj q =>
    (if !((jsonGet q "@type").getD Json.null == Json.str "Question") then
      ["FAQPage mainEntity[" ++ toString i ++ "] must have @type: Question"]
    else [])
    ++ (if !(jsonHas q "name") then
      ["FAQPage Question[" ++ toString i ++ "] missing \x27name\x27"]
    else [])
    ++ (if !(jsonHas q "acceptedAnswer") then
      ["FAQPage Question[" ++ toString i ++ "] missing \x27acceptedAnswer\x27"]
    else
      match jsonGet q "acceptedAnswer" with
      | some (Json.obj answer) => faqAnswerErrors i answer
      | _ => [])
  | _ => ["FAQPage mainEntity[" ++ toString i ++ "] is not an object"]

/-- The nested address checks of the LocalBusiness block
(lines 177-185): they run only when `address` is present and a dict. -/
def localBusinessAddressErrors (schema_data : List (String × Json)) :
    List String :=
  match jsonGet schema_data "address" with
  | some (Json.obj address) =>
    (if !((jsonGet address "@type").getD Json.null == Json.str "PostalAddress")
    then ["LocalBusiness address must have @type: PostalAddress"]
    else [])
    ++ (["streetAddress", "addressLocality", "postalCode",
         "addressCountry"].filterMap (fun prop =>
      if jsonHas address prop then none
      else some ("LocalBusiness PostalAddress missing \x27" ++ prop ++ "\x27")))
  | _ => []

/-- `validate_required_properties` (lines 115-199): the `@context` check
always runs; the type-specific blocks compare `schema_data.get("@type",
"")` — a JSON value — against type-name strings, so they apply only when
`@type` is a single string. -/
def validate_required_properties (schema_data : List (String × Json)) :
    List String :=
  let schemaType := (jsonGet schema_data "@type").getD (Json.str "")
  let contextErrors :=
    match jsonGet schema_data "@context" with
    | none => ["Missing @context"]
    | some v =>
      if !(v == Json.str "https://schema.org") then
        ["Invalid @context: " ++ pyStr v]
      else []
  let typeErrors :=
    if schemaType == Json.str "Organization" then
      missingProps schema_data "Organization" ["name", "url"]
    else if schemaType == Json.str "Article"
        || schemaType == Json.str "BlogPosting" then
      missingProps schema_data (pyStr schemaType)
        ["headline", "author", "datePublished"]
      ++ (match jsonGet schema_data "datePublished" with
          | some v =>
            if !(dateFormatOk v) then
              ["Invalid datePublished format: " ++ pyStr v]
            else []
          | none => [])
    else if schemaType == Json.str "BreadcrumbList" then
      missingProps schema_data "BreadcrumbList" ["itemListElement"]
    else if schemaType == Json.str "FAQPage" then
      match jsonGet schema_data "mainEntity" with
      | none => ["FAQPage missing \x27mainEntity\x27"]
      | some (Json.arr qs) =>
        (if qs.length < 2 then ["FAQPage must have at least 2 questions"]
        else [])
        ++ qs.enum.flatMap (fun p => faqQuestionErrors p.1 p.2)
      | some _ => []
    else if schemaType == Json.str "LocalBusiness" then
      missingProps schema_data "LocalBusiness" ["name", "address", "telephone"]
      ++ localBusinessAddressErrors schema_data
    else if schemaType == Json.str "Person" then
      missingProps schema_data "Person" ["name", "url"]
    else if schemaType == Json.str "JobPosting" then
      missingProps schema_data "JobPosting"
        ["title", "description", "datePosted", "hiringOrganization"]
    else []
  contextErrors ++ typeErrors

/-- Result dict of `validate_structured_data` (lines 202-236). -/
structure ValidationResult where
  valid : Bool
  errors : List String
  warnings : List String
deriving DecidableEq

/-- `validate_structured_data` (lines 202-236): a failed parse returns
immediately with the single syntax error; otherwise the type check, the
required-property check and the URL-shape check all contribute errors,
and a non-HTTPS but well-formed URL contributes the only warning. -/
def validate_structured_data
    (parsed : Except String (List (String × Json))) : ValidationResult :=
  let syntaxCheck := validate_json_syntax parsed
  match parsed with
  | .error _ => ⟨false, [syntaxCheck.message], []⟩
  | .ok data =>
    let typeCheck := validate_schema_type data
    let typeErrors := if typeCheck.valid then [] else [typeCheck.message]
    let propErrors := validate_required_properties data
    let urlErrors :=
      match jsonGet data "url" with
      | some (Json.str u) =>
        if !(validate_url_format u) then ["Invalid URL format: " ++ u] else []
      | _ => []
    let urlWarnings :=
      match jsonGet data "url" with
      | some (Json.str u) =>
        if validate_url_format u && !(startsWithS u "https://") then
          ["URL should use https:// (got " ++ u ++ ")"]
        else []
      | _ => []
    ⟨typeCheck.valid && propErrors.isEmpty && urlErrors.isEmpty,
      typeErrors ++ propErrors ++ urlErrors, urlWarnings⟩

/-! ## check-input-assistance.py — label detection for inputs

`find_labelled_inputs` (lines 66-156) iterates over every
`<input|select|textarea ...>` opening-tag match and classifies each tag
from its own text plus the set of ids that have a `<label for=...>` in
the file.  We embed that per-tag classification. -/

/-- The single-quote character, `'`. -/
def squoteChar : Char := Char.ofNat 39

/-- The single-quote character as a string. -/
def squote : String := String.mk [squoteChar]

/-- Either quote character of the attribute regexes `["\']`. -/
def isQuote (c : Char) : Bool := c == '"' || c == squoteChar

/-- Try the pattern `pat["\']([^"\']+)["\']` at the head of `text`,
returning the captured value. -/
def attrMatchAt (pat : List Char) (text : List Char) : Option String :=
  if prefixOf pat text then
    match text.drop pat.length with
    | q :: rest =>
      if isQuote q then
        let v := rest.takeWhile (fun c => !(isQuote c))
        if !v.isEmpty && ((rest.drop v.length).head?.any isQuote) then
          some (String.mk v)
        else none
      else none
    | [] => none
  else none

/-- Leftmost occurrence of `pat["\']([^"\']+)["\']` in `text`. -/
def attrSearch (pat : List Char) : List Char → Option String
  | [] => none
  | t :: ts =>
    match attrMatchAt pat (t :: ts) with
    | some v => some v
    | none => attrSearch pat ts

/-- `re.search(attr + '=["\']([^"\']+)["\']', s)` — the case-sensitive
attribute-value extraction used on input tags (lines 94-99). -/
def attrValue (attr : String) (s : String) : Option String :=
  attrSearch (attr ++ "=").data s.data

/-- Try the pattern `type=["\']hidden["\']` at the head of `cs` (already
lowercased): the character classes accept either quote on either side,
including mismatched combinations. -/
def hiddenMatchAt (cs : List Char) : Bool :=
  prefixOf "type=".data cs
    && (match cs.drop 5 with
      | q :: rest =>
        isQuote q && prefixOf "hidden".data rest
          && ((rest.drop 6).head?.any isQuote)
      | [] => false)

/-- Scan for `type=["\']hidden["\']`. -/
def hiddenInputAux : List Char → Bool
  | [] => false
  | c :: cs => hiddenMatchAt (c :: cs) || hiddenInputAux cs

/-- The hidden-input skip (line 90): `re.search(r'type=["\']hidden["\']',
tag, re.IGNORECASE)`. -/
def hiddenInput (tag : String) : Bool := hiddenInputAux (lowerStr tag).data

/-- The `has_label` computation (lines 101-110): a label via the
id-to-label map, an `aria-label`, or an `aria-labelledby`. -/
def hasLabelAttr (tag : String) (labelledIds : List String) : Bool :=
  (match attrValue "id" tag with
    | some i => labelledIds.contains i
    | none => false)
  || (attrValue "aria-label" tag).isSome
  || (attrValue "aria-labelledby" tag).isSome

/-- Message of the missing-label issue (line 118). -/
def missingLabelMsg : String :=
  "Form control missing associated label (use <label for=\"id\"> or aria-label/aria-labelledby). Placeholder is not a visible label."

/-- Message of the placeholder-only issue (line 152). -/
def placeholderOnlyMsg : String :=
  "Placeholder text used as the only label. Placeholders are not sufficient labels; provide a visible <label>."

/-- Message of the email-type suggestion (line 131). -/
def emailTypeMsg : String :=
  "Input appears to collect an email address but does not use type=\"email\". Use semantic input types for better assistance and mobile keyboards."

/-- Message of the tel-type suggestion (line 141). -/
def telTypeMsg : String :=
  "Input appears to collect a phone number but does not use type=\"tel\". Use type=\"tel\" for better mobile input assistance."

/-- The name-based email/phone type suggestions (lines 122-143). -/
def nameTypeIssues (tag : String) : List String :=
  match attrValue "name" tag with
  | none => []
  | some nm =>
    let nameL := lowerStr nm
    (if containsS nameL "email"
        && !(match attrValue "type" tag with
          | some t => lowerStr t == "email"
          | none => false) then [emailTypeMsg]
    else [])
    ++ (if (containsS nameL "phone" || containsS nameL "tel")
        && !(match attrValue "type" tag with
          | some t => lowerStr t == "tel"
          | none => false) then [telTypeMsg]
    else [])

/-- The per-tag issue list of `find_labelled_inputs` (lines 84-154): a
hidden input is skipped; an unlabelled tag gets the missing-label issue;
the name heuristics may add type suggestions; an unlabelled tag with a
placeholder additionally gets the placeholder-only issue. -/
def inputTagIssues (tag : String) (labelledIds : List String) : List String :=
  if hiddenInput tag then []
  else
    let hasLabel := hasLabelAttr tag labelledIds
    (if !hasLabel then [missingLabelMsg] else [])
    ++ nameTypeIssues tag
    ++ (if (attrValue "placeholder" tag).isSome && !hasLabel then
        [placeholderOnlyMsg]
      else [])

/-! ## check-enough-time.py — timing-adjustable heuristic

`check_timing_adjustable` (lines 56-140): per line with a
`setTimeout`/`setInterval` call, inspect the ±10-line context window and
flag when session/countdown/auto-submit vocabulary is present and
animation/debounce vocabulary is absent.  The whole function is embedded
over a file path and file content. -/

/-- Word characters for the `\b` boundary of the call regex. -/
def isWordChar (c : Char) : Bool := c.isAlphanum || c == '_'

/-- `\b` relative to the previous character (none at line start). -/
def atWordBoundary (prev : Option Char) : Bool :=
  match prev with
  | some c => !isWordChar c
  | none => true

/-- Try `name\s*\(` at the head of `cs`. -/
def callNameAt (name : String) (cs : List Char) : Bool :=
  prefixOf name.data cs
    && ((cs.drop name.data.length).dropWhile Char.isWhitespace).head? == some '('

/-- Scan for `\b(setTimeout|setInterval)\s*\(`. -/
def hasTimeoutCallAux : Option Char → List Char → Bool
  | _, [] => false
  | prev, c :: cs =>
    (atWordBoundary prev
      && (callNameAt "setTimeout" (c :: cs) || callNameAt "setInterval" (c :: cs)))
    || hasTimeoutCallAux (some c) cs

/-- `re.search(r'\b(setTimeout|setInterval)\s*\(', line)` (line 88). -/
def hasTimeoutCall (s : String) : Bool := hasTimeoutCallAux none s.data

/-- Scan for `time\s*left` in an already lowercased text. -/
def timeLeftAux : List Char → Bool
  | [] => false
  | c :: cs =>
    (prefixOf "time".data (c :: cs)
      && prefixOf "left".data (((c :: cs).drop 4).dropWhile Char.isWhitespace))
    || timeLeftAux cs

/-- `session|logout|timeout|expire` (line 101), IGNORECASE. -/
def sessionVocab (context : String) : Bool :=
  containsCI context "session" || containsCI context "logout"
    || containsCI context "timeout" || containsCI context "expire"

/-- `countdown|timer|remaining|time\s*left` (line 105), IGNORECASE. -/
def countdownVocab (context : String) : Bool :=
  containsCI context "countdown" || containsCI context "timer"
    || containsCI context "remaining" || timeLeftAux (lowerStr context).data

/-- `submit|auto.*submit` (line 109), IGNORECASE.  The second
alternative also ends in `submit`, so the alternation matches exactly
when `submit` occurs. -/
def autoSubmitVocab (context : String) : Bool := containsCI context "submit"

/-- `animation|transition|delay|fade|slide` (line 114), IGNORECASE. -/
def animationVocab (context : String) : Bool :=
  containsCI context "animation" || containsCI context "transition"
    || containsCI context "delay" || containsCI context "fade"
    || containsCI context "slide"

/-- `debounce|throttle` (line 118), IGNORECASE. -/
def debounceVocab (context : String) : Bool :=
  containsCI context "debounce" || containsCI context "throttle"

/-- Try `(\d+)\s*\)` at the head of `cs`. -/
def durationAt (cs : List Char) : Option Nat :=
  let ds := cs.takeWhile Char.isDigit
  if ds.isEmpty then none
  else if ((cs.drop ds.length).dropWhile Char.isWhitespace).head? == some ')' then
    some (digitsToNat ds)
  else none

/-- `re.search(r'(\d+)\s*\)', line)` (line 122): the visible timeout
duration on the call line. -/
def findDuration : List Char → Option Nat
  | [] => none
  | c :: cs =>
    match durationAt (c :: cs) with
    | some v => some v
    | none => findDuration cs

/-- The allow-list of files known to use timers safely (lines 75-79). -/
def timingSkipFiles : List String :=
  ["StatusModal.tsx", "ContactForm.tsx", "JobForm.tsx"]

/-- The ±10-line context window of line `i` (1-based), joined with
newlines (lines 95-97). -/
def contextWindow (lines : List String) (i : Nat) : String :=
  String.mk (joinNL
    (((lines.drop (i - 10)).take
      (min lines.length (i + 10) - (i - 10))).map String.data))

/-- The flag condition of lines 100-133: problematic vocabulary present
and safe vocabulary absent in the context window. -/
def timingFlagCondition (context : String) : Bool :=
  (sessionVocab context || countdownVocab context || autoSubmitVocab context)
    && !(animationVocab context || debounceVocab context)

/-- Does line `i` (1-based, content `line`) get flagged? -/
def flaggedLine (lines : List String) (i : Nat) (line : String) : Bool :=
  if hasTimeoutCall (trimS line) then
    timingFlagCondition (contextWindow lines i)
  else false

/-- The message of a timing-adjustable violation (line 133). -/
def timingMessage : String :=
  "Potential time limit detected - ensure users can turn off, adjust, or extend the time limit (SC 2.2.1)"

/-- `check_timing_adjustable` (lines 56-140). -/
def check_timing_adjustable (filePath : String) (content : String) :
    List TimingViolation :=
  if timingSkipFiles.any (fun skip => containsS filePath skip) then []
  else
    let lines := (splitOnChar '\n' content.data).map String.mk
    lines.enum.filterMap (fun p =>
      if flaggedLine lines (p.1 + 1) p.2 then
        some ⟨filePath, p.1 + 1, timingMessage⟩
      else none)

/-! ## check-compatible.py — accessible-name rule

`detect_missing_name_role_value` (lines 81-172): its first loop walks
every match of the interactive-element pattern
`<(button|a|input|select|textarea)(\s|>|/)[^>]*>|role=["\'](button|link|tab|menuitem|option)["\']`
and decides from the 200-character snippet at the match start (plus, for
inputs, wider windows) whether to emit the accessible-name issue.  We
embed the per-match classification: `start` is the match offset in
`content` and `tagGroup` the captured tag name (`none` for a
`role="..."` match). -/

/-- Substring of `content` of `len` characters starting at `start`. -/
def subStr (content : String) (start len : Nat) : String :=
  String.mk ((content.data.drop start).take len)

/-- Scan for `>[^<]+<`: a tag close followed by non-empty text content
and another tag. -/
def textChildPat : List Char → Bool
  | [] => false
  | c :: cs =>
    (c == '>'
      && (let run := cs.takeWhile (fun d => d ≠ '<')
        !run.isEmpty && (cs.drop run.length).head? == some '<'))
    || textChildPat cs

/-- Scan for a tag close followed by optional whitespace and a JSX
expression opening brace. -/
def exprChildPat : List Char → Bool
  | [] => false
  | c :: cs =>
    (c == '>' && (cs.dropWhile Char.isWhitespace).head? == some (Char.ofNat 123))
    || exprChildPat cs

/-- The skip test of line 101 on the 200-character snippet
(IGNORECASE): an `aria-label=`/`aria-labelledby=` attribute, a React
`ariaLabelledBy=`/`ariaLabelledby=` prop (one lowercase form), visible
text content, or a JSX expression child. -/
def hasAccessibleNameHint (snippet : String) : Bool :=
  containsCI snippet "aria-label=" || containsCI snippet "aria-labelledby="
    || containsCI snippet "arialabelledby="
    || textChildPat snippet.data || exprChildPat snippet.data

/-- Try `\bid\s*=\s*["\']([^"\']+)["\']` at the head of `cs`, with
`prev` the character before it. -/
def idWBMatchAt (prev : Option Char) (cs : List Char) : Option String :=
  if atWordBoundary prev && prefixOf "id".data cs then
    match (cs.drop 2).dropWhile Char.isWhitespace with
    | '=' :: r2 =>
      match r2.dropWhile Char.isWhitespace with
      | q :: rest =>
        if isQuote q then
          let v := rest.takeWhile (fun c => !(isQuote c))
          if !v.isEmpty && ((rest.drop v.length).head?.any isQuote) then
            some (String.mk v)
          else none
        else none
      | [] => none
    | _ => none
  else none

/-- Leftmost `\bid\s*=\s*["\']([^"\']+)["\']` match. -/
def searchIdWBAux : Option Char → List Char → Option String
  | _, [] => none
  | prev, c :: cs =>
    match idWBMatchAt prev (c :: cs) with
    | some v => some v
    | none => searchIdWBAux (some c) cs

/-- `re.search(r'\bid\s*=\s*["\']([^"\']+)["\']', s)` (lines 112, 119). -/
def searchIdWB (s : String) : Option String := searchIdWBAux none s.data

/-- The `\s*=\s*["\']id["\']` tail of the label-for pattern. -/
def labelForEq (idL : List Char) (cs : List Char) : Bool :=
  match cs.dropWhile Char.isWhitespace with
  | '=' :: r2 =>
    match r2.dropWhile Char.isWhitespace with
    | q :: rest =>
      isQuote q && prefixOf idL rest
        && ((rest.drop idL.length).head?.any isQuote)
    | [] => false
  | _ => false

/-- After `<label`, scan `[^>]*` for `for\s*=\s*["\']id["\']` without
crossing a `>` (all input already lowercased). -/
def labelForTail (idL : List Char) : List Char → Bool
  | [] => false
  | c :: cs =>
    if c == '>' then false
    else
      (prefixOf "for".data (c :: cs) && labelForEq idL ((c :: cs).drop 3))
        || labelForTail idL cs

/-- Scan the whole content for `<label[^>]*for\s*=\s*["\']id["\']`
(IGNORECASE), line 126. -/
def labelForAux (idL : List Char) : List Char → Bool
  | [] => false
  | c :: cs =>
    (prefixOf "<label".data (c :: cs) && labelForTail idL (cs.drop 5))
    || labelForAux idL cs

/-- `re.search(rf'<label[^>]*for\s*=\s*["\']{id}["\']', content,
re.IGNORECASE)`. -/
def labelForId (content id : String) : Bool :=
  labelForAux (lowerStr id).data (lowerStr content).data

/-- The input special-case (lines 110-138): find an id in the snippet or
an 800-character window, look for an associated `<label for=id>` in the
whole file, and otherwise accept a wrapping `<label>` seen in the 500
characters before and after the match. -/
def inputLabeled (content : String) (start : Nat) : Bool :=
  let snippet := subStr content start 200
  let inputId :=
    match searchIdWB snippet with
    | some v => some v
    | none => searchIdWB (subStr content start 800)
  let labeledById :=
    match inputId with
    | some i => labelForId content i
    | none => false
  if labeledById then true
  else
    let backStart := start - 500
    let back := subStr content backStart (start - backStart)
    let nextPart := subStr content start 500
    containsS back "<label" && containsS nextPart "</label>"

/-- Per-match classification of the accessible-name loop (lines 91-147):
`true` means the issue is appended for this match. -/
def nameRoleValueIssueAt (filePath content : String) (start : Nat)
    (tagGroup : Option String) : Bool :=
  if startsWithS filePath "components/common/" then false
  else
    let snippet := subStr content start 200
    if hasAccessibleNameHint snippet then false
    else if tagGroup == some "a"
        && !(containsS snippet "href=\"" || containsS snippet ("href=" ++ squote)) then
      false
    else if tagGroup == some "input" then !(inputLabeled content start)
    else true

/-- The opening-tag text at a match offset: everything from the match
start up to the first `>`.  Used to state which attributes an element
itself carries. -/
def openingTagAt (content : String) (start : Nat) : String :=
  String.mk ((content.data.drop start).takeWhile (fun c => c ≠ '>'))

/-- A `<button>` element whose `aria-label` attribute begins more than
200 characters after the start of the tag. -/
def longAriaLabelButton : String :=
  "<button " ++ String.mk (List.replicate 200 'z')
    ++ " aria-label=\"Close\">OK</button>"

/-! ## Helper lemmas -/

theorem adjust_zero : adjust 0 = 0 := by
  unfold adjust
  norm_num

theorem adjust_one : adjust 1 = 1 := by
  unfold adjust
  rw [if_neg (by norm_num)]
  push_cast
  norm_num

theorem adjust_nonneg (q : ℚ) (hq : 0 ≤ q) : 0 ≤ adjust q := by
  unfold adjust
  split
  · positivity
  · exact Real.rpow_nonneg (by positivity) _

theorem relativeLuminance_nonneg (rgb : Nat × Nat × Nat) :
    0 ≤ relativeLuminance rgb := by
  unfold relativeLuminance
  have h1 := adjust_nonneg ((rgb.1 : ℚ) / 255) (by positivity)
  have h2 := adjust_nonneg ((rgb.2.1 : ℚ) / 255) (by positivity)
  have h3 := adjust_nonneg ((rgb.2.2 : ℚ) / 255) (by positivity)
  positivity

theorem relativeLuminance_white : relativeLuminance (255, 255, 255) = 1 := by
  unfold relativeLuminance
  norm_num [adjust_one]

theorem relativeLuminance_black : relativeLuminance (0, 0, 0) = 0 := by
  unfold relativeLuminance
  norm_num [adjust_zero]

theorem skippedLevelViolations_length (l : List Nat) :
    (skippedLevelViolations l).length =
      (l.zip l.tail).countP (fun p => decide (p.1 + 1 < p.2)) := by
  induction l with
  | nil => simp [skippedLevelViolations]
  | cons a l ih =>
    cases l with
    | nil => simp [skippedLevelViolations]
    | cons b rest =>
      simp only [skippedLevelViolations, List.length_append, List.tail_cons,
        List.zip_cons_cons, List.countP_cons, ih]
      by_cases h : b > a + 1
      · simp [h, Nat.add_comm]
      · simp [h, Nat.not_lt.mp h]

theorem validateTypeList_valid (l : List Json) :
    (validateTypeList l).valid =
      l.all (fun t => validTypes.any (fun v => t == Json.str v)) := by
  simp only [validateTypeList]
  cases hf : l.filter (fun t => !(validTypes.any (fun v => t == Json.str v))) with
  | nil =>
    have hall : ∀ t ∈ l, validTypes.any (fun v => t == Json.str v) = true := by
      intro t ht
      have := List.filter_eq_nil_iff.mp hf t ht
      simpa using this
    simp [List.all_eq_true.mpr hall]
  | cons a as =>
    have hmem : a ∈ l.filter
        (fun t => !(validTypes.any (fun v => t == Json.str v))) := by
      rw [hf]
      exact List.mem_cons_self a as
    rw [List.mem_filter] at hmem
    have hfl : l.all (fun t => validTypes.any (fun v => t == Json.str v))
        = false := by
      rw [List.all_eq_false]
      exact ⟨a, hmem.1, by simpa using hmem.2⟩
    simp [hfl]

/-! ## Claim theorems -/

/-- C2: the contrast calculator implements the exact WCAG formula —
per-channel sRGB-to-linear conversion, luminance
`0.2126·R + 0.7152·G + 0.0722·B`, ratio
`(L_lighter + 0.05) / (L_darker + 0.05)` — so that
`contrast_ratio("#FFFFFF", "#000000")` equals 21 (floats modelled as
real numbers, where the value is exact). -/
theorem contrastRatio_white_black :
    contrastRatio "#FFFFFF" "#000000" = some 21 := by
  have hw : hexToRgb "#FFFFFF" = some (255, 255, 255) := by decide
  have hb : hexToRgb "#000000" = some (0, 0, 0) := by decide
  unfold contrastRatio
  rw [hw, hb]
  simp only [relativeLuminance_white, relativeLuminance_black]
  have hmax : max (1 : ℝ) 0 = 1 := by norm_num
  have hmin : min (1 : ℝ) 0 = 0 := by norm_num
  rw [hmax, hmin]
  norm_num

/-- C4: `contrast_ratio` is symmetric in its two colors, and on any hex
color that parses, the self-ratio is exactly 1. -/
theorem contrastRatio_symm_self :
    (∀ fg bg, contrastRatio fg bg = contrastRatio bg fg)
    ∧ (∀ x rgb, hexToRgb x = some rgb → contrastRatio x x = some 1) := by
  constructor
  · intro fg bg
    unfold contrastRatio
    cases h1 : hexToRgb fg <;> cases h2 : hexToRgb bg <;>
      simp [max_comm, min_comm]
  · intro x rgb h
    unfold contrastRatio
    rw [h]
    simp only [max_self, min_self]
    have hpos : (0 : ℝ) < relativeLuminance rgb + 0.05 := by
      have := relativeLuminance_nonneg rgb
      norm_num
      linarith
    rw [div_self (ne_of_gt hpos)]

/-- Witness for C4 at the concrete palette color white. -/
theorem contrastRatio_symm_self_witness :
    contrastRatio "#FFFFFF" "#FFFFFF" = some 1 :=
  contrastRatio_symm_self.2 "#FFFFFF" (255, 255, 255) (by decide)

/-- C1: the exit code of a checker run is a pure function of the
aggregated issue list — 1 exactly when an issue of blocking severity
("error") exists, 0 otherwise; in particular a run whose issues are all
of non-blocking (warning) severity exits 0.  For check-enough-time.py
every emitted violation is blocking (its header declares exit 1 = errors
found), so its exit code is 1 exactly when any violation exists. -/
theorem exitCode_pure_function_of_blocking :
    (∀ vs : List SemanticViolation,
      semanticExitCode vs =
        if vs.any (fun v => v.severity == "error") then 1 else 0)
    ∧ (∀ vs : List SemanticViolation,
      (∀ v ∈ vs, v.severity ≠ "error") → semanticExitCode vs = 0)
    ∧ (∀ t p : List TimingViolation,
      enoughTimeExitCode t p = if t ++ p = [] then 0 else 1) := by
  have main : ∀ vs : List SemanticViolation,
      semanticExitCode vs =
        if vs.any (fun v => v.severity == "error") then 1 else 0 := by
    intro vs
    unfold semanticExitCode
    by_cases h : vs.any (fun v => v.severity == "error") = true
    · rw [if_pos h, if_pos]
      rw [List.any_eq_true] at h
      obtain ⟨v, hv, hsev⟩ := h
      intro hnil
      have hmem : v ∈ vs.filter (fun v => v.severity == "error") :=
        List.mem_filter.mpr ⟨hv, hsev⟩
      rw [hnil] at hmem
      exact List.not_mem_nil v hmem
    · rw [if_neg h]
      have hnil : vs.filter (fun v => v.severity == "error") = [] := by
        rw [List.filter_eq_nil_iff]
        intro a ha hsev
        exact h (List.any_eq_true.mpr ⟨a, ha, hsev⟩)
      rw [hnil]
      simp
  refine ⟨main, ?_, ?_⟩
  · intro vs h
    rw [main]
    have hfalse : vs.any (fun v => v.severity == "error") = false := by
      rw [List.any_eq_false]
      intro v hv
      simpa using h v hv
    rw [hfalse]
    rfl
  · intro t p
    unfold enoughTimeExitCode
    cases t <;> cases p <;> simp

/-- Witness for C1: a run whose only issue is a warning exits 0, and an
enough-time run with no violations exits 0. -/
theorem exitCode_pure_function_of_blocking_witness :
    semanticExitCode
      [⟨"Page without headings", "warning",
        "Page should have at least one heading for structure"⟩] = 0 ∧
    enoughTimeExitCode [] [] = 0 := by
  constructor
  · exact exitCode_pure_function_of_blocking.2.1 _ (by decide)
  · rw [exitCode_pure_function_of_blocking.2.2]
    rfl

/-- C3: for a page file checked by the heading-hierarchy rule, with its
heading levels collected in document order, the rule emits one violation
when the first heading is not level 1, one per consecutive pair whose
level increases by more than one, and one when more than one level-1
heading exists; hence `[1,2,4]` yields exactly one issue and `[1,2,3]`
yields zero. -/
theorem checkHeadingHierarchy_spec :
    (∀ (first : Nat) (rest : List Nat),
      (checkHeadingHierarchy (first :: rest)).length =
        (if first ≠ 1 then 1 else 0)
          + ((first :: rest).zip rest).countP (fun p => decide (p.1 + 1 < p.2))
          + (if 1 < (first :: rest).countP (fun level => level == 1) then 1
            else 0))
    ∧ (checkHeadingHierarchy [1, 2, 4]).length = 1
    ∧ checkHeadingHierarchy [1, 2, 3] = [] := by
  refine ⟨?_, by decide, by decide⟩
  intro first rest
  have hz := skippedLevelViolations_length (first :: rest)
  simp only [List.tail_cons] at hz
  have hlen : ∀ (c : Prop) (inst : Decidable c) (a : SemanticViolation),
      (if c then [a] else []).length = if c then 1 else 0 := by
    intro c inst a
    split <;> rfl
  simp only [checkHeadingHierarchy, List.length_append, hz, hlen]

/-- C5 counterexample: the valid-route set is not trailing-slash
normalized.  A rendered file `blog/index.html` yields the route
`"/blog/"` (only the five characters `index` are dropped), which is not
its own trailing-slash normalization, and a link `"/blog"` to that very
page is consequently reported broken. -/
theorem brokenLinks_route_not_normalized_counterexample :
    routeOfFile "blog/index" = "/blog/"
    ∧ normalizeTrailingSlash (routeOfFile "blog/index") ≠ routeOfFile "blog/index"
    ∧ brokenLinks [("blog/index", ["/blog"])] = [("/blog/", "/blog")] := by
  refine ⟨by decide, by decide, by decide⟩

/-- C5 (amended): the route set prefixes `/` and drops a trailing
`index` (top-level `/index` collapses to `/`; trailing-slash
normalization applies to the checked hrefs, not to the route set); every
href with a URL scheme or starting with `#`, `mailto:` or `tel:` is
skipped; and the build with pages `/about` and `/blog/post-1` where one
page links to `/about` and `/missing` reports exactly one broken link,
for `/missing`, attributed to the correct source page. -/
theorem brokenLinks_spec :
    (∀ (files : List (String × List String)) (src href : String),
      skipHref href = true → (src, href) ∉ brokenLinks files)
    ∧ routeOfFile "index" = "/"
    ∧ brokenLinks [("about", ["/about", "/missing"]), ("blog/post-1", [])]
        = [("/about", "/missing")] := by
  refine ⟨?_, by decide, by decide⟩
  intro files src href hskip hmem
  unfold brokenLinks at hmem
  rw [List.mem_flatMap] at hmem
  obtain ⟨f, hf, hmem2⟩ := hmem
  rw [List.mem_filterMap] at hmem2
  obtain ⟨a, ha, hg⟩ := hmem2
  by_cases hs : skipHref a
  · simp [hs] at hg
  · simp only [hs, if_false, Bool.false_eq_true] at hg
    split at hg
    · exact absurd hg (by simp)
    · have := (Option.some.injEq _ _).mp hg
      have ha2 : a = href := congrArg Prod.snd this
      rw [ha2] at hs
      exact hs hskip

/-- Witness for C5: a `mailto:` href is never reported broken. -/
theorem brokenLinks_spec_witness :
    ("/about", "mailto:info@cennso.io") ∉
      brokenLinks [("about", ["mailto:info@cennso.io"])] :=
  brokenLinks_spec.1 [("about", ["mailto:info@cennso.io"])] "/about"
    "mailto:info@cennso.io" (by decide)

/-- C6: a JSON-LD block whose content fails to parse produces exactly
one error — the syntax error — and no structural validation (no @type,
required-property or URL check) contributes anything to the result. -/
theorem validate_structured_data_syntax_error :
    ∀ msg : String,
      validate_structured_data (Except.error msg)
        = ⟨false, ["JSON syntax error: " ++ msg], []⟩
      ∧ (validate_structured_data (Except.error msg)).errors.length = 1 := by
  intro msg
  exact ⟨rfl, rfl⟩

/-- C10: when `@type` is a list, `validate_required_properties` performs
no type-specific validation — its result is exactly the `@context`
check — while `validate_schema_type` still validates every list entry
against the whitelist. -/
theorem validate_required_properties_list_type :
    ∀ (kvs : List (String × Json)) (l : List Json),
      jsonGet kvs "@type" = some (Json.arr l) →
      validate_required_properties kvs =
        (match jsonGet kvs "@context" with
          | none => ["Missing @context"]
          | some v =>
            if !(v == Json.str "https://schema.org") then
              ["Invalid @context: " ++ pyStr v]
            else [])
      ∧ (validate_schema_type kvs).valid =
          l.all (fun t => validTypes.any (fun v => t == Json.str v)) := by
  intro kvs l h
  have harr : ∀ (xs : List Json) (s : String),
      (Json.arr xs == Json.str s) = false := fun _ _ => rfl
  constructor
  · unfold validate_required_properties
    rw [h]
    simp [harr]
  · unfold validate_schema_type
    rw [h]
    exact validateTypeList_valid l

/-- Witness for C10: a block typed `["Article"]` with a valid context
passes the required-property check with no errors although it carries
none of the Article requirements, and its type check succeeds. -/
theorem validate_required_properties_list_type_witness :
    validate_required_properties
      [("@context", Json.str "https://schema.org"),
       ("@type", Json.arr [Json.str "Article"])] = []
    ∧ (validate_schema_type
      [("@context", Json.str "https://schema.org"),
       ("@type", Json.arr [Json.str "Article"])]).valid = true := by
  have h := validate_required_properties_list_type
    [("@context", Json.str "https://schema.org"),
     ("@type", Json.arr [Json.str "Article"])] [Json.str "Article"] rfl
  exact ⟨h.1.trans (by decide), h.2.trans (by decide)⟩

/-- C7 counterexample: an input with a placeholder and no associated
label receives two Issues from `find_labelled_inputs`, not exactly one —
the missing-label Issue (line 113) and the placeholder-only Issue
(line 147) are appended independently. -/
theorem inputTagIssues_placeholder_counterexample :
    (attrValue "placeholder" "<input placeholder=\"Name\">").isSome = true
    ∧ hasLabelAttr "<input placeholder=\"Name\">" [] = false
    ∧ inputTagIssues "<input placeholder=\"Name\">" []
        = [missingLabelMsg, placeholderOnlyMsg]
    ∧ (inputTagIssues "<input placeholder=\"Name\">" []).length ≠ 1 := by
  refine ⟨by decide, by decide, by decide, by decide⟩

/-- C7 (amended): every non-hidden input with a placeholder attribute
and no associated label receives exactly the missing-label Issue first
and the placeholder-only Issue last — two Issues for the label problem —
with only the email/phone type-suggestion Issues of the name heuristics
(empty for an ordinary or absent name) between them. -/
theorem inputTagIssues_placeholder_no_label :
    ∀ (tag : String) (ids : List String),
      hiddenInput tag = false →
      (attrValue "placeholder" tag).isSome = true →
      hasLabelAttr tag ids = false →
      inputTagIssues tag ids
        = missingLabelMsg :: (nameTypeIssues tag ++ [placeholderOnlyMsg]) := by
  intro tag ids hhidden hplace hlabel
  unfold inputTagIssues
  rw [hhidden, hlabel, hplace]
  simp

/-- Witness for C7 at a concrete named input whose name trips no type
heuristic: exactly the two label Issues result. -/
theorem inputTagIssues_placeholder_no_label_witness :
    inputTagIssues "<input name=\"subject\" placeholder=\"Subject\">" []
      = [missingLabelMsg, placeholderOnlyMsg] :=
  (inputTagIssues_placeholder_no_label
    "<input name=\"subject\" placeholder=\"Subject\">" []
    (by decide) (by decide) (by decide)).trans (by decide)

/-- C8 counterexample: a 300-millisecond `setTimeout` call site (well
under 5 seconds) in a file that is not on the allow-list is still
flagged — the extracted short duration is never consulted on the
flagging branch (it only guards the disabled generic branch at
line 135). -/
theorem timing_short_duration_flagged_counterexample :
    findDuration (trimS "setTimeout(next, 300)").data = some 300
    ∧ (300 : Nat) < 5000
    ∧ check_timing_adjustable "pages/foo.tsx" "setTimeout(next, 300)"
        = [⟨"pages/foo.tsx", 1, timingMessage⟩] := by
  refine ⟨by decide, by decide, by decide⟩

/-- C8 (amended): a timer call site is flagged only when its ±10-line
context window contains session/countdown/auto-submit vocabulary and
lacks animation/debounce vocabulary, and files on the explicit
allow-list are never flagged; a short duration by itself does not exempt
a call site. -/
theorem check_timing_adjustable_spec :
    (∀ (path content : String) (v : TimingViolation),
      v ∈ check_timing_adjustable path content →
      (sessionVocab (contextWindow
            ((splitOnChar '\n' content.data).map String.mk) v.lineNumber)
        || countdownVocab (contextWindow
            ((splitOnChar '\n' content.data).map String.mk) v.lineNumber)
        || autoSubmitVocab (contextWindow
            ((splitOnChar '\n' content.data).map String.mk) v.lineNumber)) = true
      ∧ animationVocab (contextWindow
          ((splitOnChar '\n' content.data).map String.mk) v.lineNumber) = false
      ∧ debounceVocab (contextWindow
          ((splitOnChar '\n' content.data).map String.mk) v.lineNumber) = false)
    ∧ (∀ (path content : String),
      timingSkipFiles.any (fun skip => containsS path skip) = true →
      check_timing_adjustable path content = []) := by
  constructor
  · intro path content v hmem
    unfold check_timing_adjustable at hmem
    split at hmem
    · exact absurd hmem (List.not_mem_nil v)
    · rw [List.mem_filterMap] at hmem
      obtain ⟨p, hp, heq⟩ := hmem
      by_cases hflag :
          flaggedLine ((splitOnChar '\n' content.data).map String.mk)
            (p.1 + 1) p.2
      · rw [if_pos hflag] at heq
        have hv := (Option.some.injEq _ _).mp heq
        have hline : v.lineNumber = p.1 + 1 := by rw [← hv]
        unfold flaggedLine at hflag
        split at hflag
        · unfold timingFlagCondition at hflag
          rw [hline]
          rw [Bool.and_eq_true, Bool.not_eq_true', Bool.or_eq_false_iff]
            at hflag
          exact ⟨hflag.1, hflag.2.1, hflag.2.2⟩
        · exact absurd hflag (by simp)
      · rw [if_neg hflag] at heq
        exact absurd heq (by simp)
  · intro path content h
    unfold check_timing_adjustable
    rw [if_pos h]

/-- Witness for C8: the allow-listed StatusModal file is never flagged,
even for a timer call surrounded by session vocabulary. -/
theorem check_timing_adjustable_spec_witness :
    check_timing_adjustable "components/StatusModal.tsx"
      "setTimeout(logout, 99999)" = [] :=
  check_timing_adjustable_spec.2 "components/StatusModal.tsx"
    "setTimeout(logout, 99999)" (by decide)

/-- C9 counterexample: an interactive element whose non-empty
`aria-label` attribute begins beyond the 200-character snippet inspected
at the match start is still flagged by the accessible-name rule — the
claim's "regardless of its other attributes" fails once the other
attributes push `aria-label` out of the inspection window. -/
theorem nameRoleValue_long_tag_counterexample :
    attrValue "aria-label" (openingTagAt longAriaLabelButton 0) = some "Close"
    ∧ ("Close" : String) ≠ ""
    ∧ nameRoleValueIssueAt "components/Button.tsx" longAriaLabelButton 0
        (some "button") = true := by
  refine ⟨by decide, by decide, by decide⟩

/-- C9 (amended): an interactive element whose `aria-label` attribute
occurs within the 200-character snippet starting at the element match is
never flagged by the accessible-name rule, regardless of its other
attributes, its tag group and the rest of the file. -/
theorem nameRoleValue_aria_label_in_window_no_issue :
    ∀ (path content : String) (start : Nat) (g : Option String),
      containsCI (subStr content start 200) "aria-label=" = true →
      nameRoleValueIssueAt path content start g = false := by
  intro path content start g h
  unfold nameRoleValueIssueAt
  split
  · rfl
  · have hhint : hasAccessibleNameHint (subStr content start 200) = true := by
      unfold hasAccessibleNameHint
      rw [h]
      rfl
    simp [hhint]

/-- Witness for C9 at a concrete labelled button. -/
theorem nameRoleValue_aria_label_in_window_no_issue_witness :
    nameRoleValueIssueAt "components/Button.tsx"
      "<button aria-label=\"x\"></button>" 0 (some "button") = false :=
  nameRoleValue_aria_label_in_window_no_issue "components/Button.tsx"
    "<button aria-label=\"x\"></button>" 0 (some "button") (by decide)

end Cennso
